import Mathlib

/-!
Verification development for the camd MI300X price-checking core
(src/camd.py): the RunPod provider adapter, the TTL file cache and
the query facade, shallowly embedded and proved against the
stated contracts.

Modelling conventions:
* Prices and times are exact rationals.  Every price the program
  computes scales the base float 2.49 by a power of two (0.5, 2, 4, 8),
  which is exact in binary floating point, so the rational model is
  faithful to the Python float arithmetic.
* Timestamps are minutes (the cache TTL unit used by the source).
* Dictionary keys read with .get and possibly absent are Option;
  keys absent from some record literals (api_source, demo_data,
  gpu_id) are modelled as Bool / String with false / "" for absence.
* Fallible I/O (HTTP, JSON parsing, the cache file) is modelled by
  explicit outcome types; the adapter and the facade are total
  functions on those outcomes, mirroring the catch-all exception
  handlers in the source.
-/

namespace Camd

/-- Canonical record for one purchasable GPU configuration, translated from
the dict literals built in RunpodProvider.get_available_gpus_api
(src/camd.py lines 185-258) and RunpodProvider.get_demo_gpus (lines 267-376). -/
structure GpuRecord where
  provider : String
  gpu_model : String
  gpu_count : Nat
  instance_type : String
  vcpus : Nat
  memory : String
  price_per_hour : ℚ
  price_per_gpu_hour : ℚ
  region : String
  available : Bool
  stock_status : String
  features : List String
  api_source : Bool
  demo_data : Bool
  gpu_id : String
  deriving Repr, DecidableEq

/-- Two-digit decimal rendering of a price, modelling the Python format
specifier for two decimal places.  Every price the program formats is an
exact multiple of a cent, so the rounding mode is immaterial. -/
def fmt2 (q : ℚ) : String :=
  let cents : Int := ⌊q * 100 + 1/2⌋
  let n : Nat := cents.toNat
  toString (n / 100) ++ "." ++ (if n % 100 < 10 then "0" else "") ++ toString (n % 100)

/-- Test that the pattern occurs at the head of the character list. -/
def leadsChars : List Char → List Char → Bool
  | [], _ => true
  | _ :: _, [] => false
  | p :: ps, c :: cs => p == c && leadsChars ps cs

/-- Test that the pattern occurs somewhere inside the character list,
modelling the Python substring containment test. -/
def hasSubChars (pat : List Char) : List Char → Bool
  | [] => pat.isEmpty
  | c :: cs => leadsChars pat (c :: cs) || hasSubChars pat cs

/-- String containment, modelling the Python expression
"MI300X" in displayName (src/camd.py line 164). -/
def strHasSub (s pat : String) : Bool := hasSubChars pat.toList s.toList

/-- One element of the gpuTypes array of the GraphQL response; every field
is read with .get in the source, so each may be absent. -/
structure GpuType where
  id : Option String
  displayName : Option String
  memoryInGb : Option Nat
  deriving Repr, DecidableEq

/-- The MI300X detection test from src/camd.py line 164: match on the exact
id, or on the display name containing "MI300X". -/
def isMI300X (g : GpuType) : Bool :=
  g.id == some "AMD Instinct MI300X OAM" || strHasSub (g.displayName.getD "") "MI300X"

/-- The data member of a GraphQL response body; only the gpuTypes key is
ever consumed by the source.  gpuTypes = none models a missing key (and the
falsy empty dict, which the source treats the same way). -/
structure GqlData where
  gpuTypes : Option (List GpuType)
  deriving Repr, DecidableEq

/-- Parse outcome of the HTTP response body. -/
inductive BodyJson where
  | invalid : BodyJson
  | gql (hasErrors : Bool) (gqlData : Option GqlData) : BodyJson
  deriving Repr, DecidableEq

/-- Outcome of the HTTP POST in RunpodProvider._make_graphql_query: either
the request raised (network error or timeout), or a response with a status
code arrived. -/
inductive HttpResult where
  | exn : HttpResult
  | resp (status : Nat) (body : BodyJson) : HttpResult
  deriving Repr, DecidableEq

/-- RunpodProvider.is_configured (src/camd.py lines 70-71): the Python
truthiness of the api key, false for an absent or empty credential. -/
def isConfigured (apiKey : String) : Bool := apiKey != ""

/-- RunpodProvider._make_graphql_query (src/camd.py lines 79-112): returns
the data member on a 200 response without errors, and None on a missing
key, a raised exception, unparseable JSON, a non-200 status, or a present
errors field. -/
def makeGraphqlQuery (apiKey : String) (r : HttpResult) : Option GqlData :=
  if apiKey = "" then none
  else
    match r with
    | .exn => none
    | .resp status body =>
      if status = 200 then
        match body with
        | .invalid => none
        | .gql hasErrors d => if hasErrors then none else d
      else none

/-- RunpodProvider.get_gpu_pricing (src/camd.py lines 73-77): the fallback
price of an MI300X hour, 2.49 dollars. -/
def defaultMI300XPrice : ℚ := 249/100

/-- The single-GPU on-demand record appended at src/camd.py lines 191-211. -/
def apiSingleGpu (gpuId : String) (memoryGb : Nat) (defaultPrice : ℚ) : GpuRecord where
  provider := "RunPod"
  gpu_model := "MI300X"
  gpu_count := 1
  instance_type := "MI300X-1x"
  vcpus := 24
  memory := toString memoryGb ++ "GB"
  price_per_hour := defaultPrice
  price_per_gpu_hour := defaultPrice
  region := "Global"
  available := true
  stock_status := "check_availability"
  features := ["On-demand pricing", "Pre-installed PyTorch + ROCm",
               "Persistent storage", "Often unavailable"]
  api_source := true
  demo_data := false
  gpu_id := gpuId

/-- The spot record appended at src/camd.py lines 214-234; the price is the
base price times one half. -/
def apiSpotGpu (gpuId : String) (memoryGb : Nat) (defaultPrice : ℚ) : GpuRecord where
  provider := "RunPod"
  gpu_model := "MI300X"
  gpu_count := 1
  instance_type := "MI300X-spot"
  vcpus := 24
  memory := toString memoryGb ++ "GB"
  price_per_hour := defaultPrice * (1/2)
  price_per_gpu_hour := defaultPrice * (1/2)
  region := "Global (Spot)"
  available := true
  stock_status := "check_availability"
  features := ["Spot pricing (~$1.25/hr)", "Interruptible", "50% discount", "Best value"]
  api_source := true
  demo_data := false
  gpu_id := gpuId

/-- One multi-unit record from the loop at src/camd.py lines 237-258:
price, vCPUs and memory scale linearly with the unit count, while the
per-GPU price stays at the base price. -/
def apiMultiGpu (gpuId : String) (memoryGb : Nat) (defaultPrice : ℚ) (gpuCount : Nat) : GpuRecord where
  provider := "RunPod"
  gpu_model := "MI300X"
  gpu_count := gpuCount
  instance_type := "MI300X-" ++ toString gpuCount ++ "x"
  vcpus := 24 * gpuCount
  memory := toString (memoryGb * gpuCount) ++ "GB"
  price_per_hour := defaultPrice * (gpuCount : ℚ)
  price_per_gpu_hour := defaultPrice
  region := "Global"
  available := true
  stock_status := "check_availability"
  features := [toString gpuCount ++ "x MI300X cluster " ++ (if gpuCount == 8 then "(max)" else ""),
               "$" ++ fmt2 (defaultPrice * (gpuCount : ℚ)) ++ "/hr total",
               toString (memoryGb * gpuCount) ++ "GB total memory",
               "Multi-GPU support"]
  api_source := true
  demo_data := false
  gpu_id := gpuId

/-- The full record list built by the live API path once the MI300X entry is
found (src/camd.py lines 185-258): on-demand, spot, then the 2x, 4x and 8x
derivations, in append order. -/
def buildApiGpus (gpuId : String) (memoryGb : Nat) : List GpuRecord :=
  apiSingleGpu gpuId memoryGb defaultMI300XPrice ::
  apiSpotGpu gpuId memoryGb defaultMI300XPrice ::
  ([2, 4, 8].map (apiMultiGpu gpuId memoryGb defaultMI300XPrice))

/-- Result of one adapter fetch: the records, plus whether an HTTP request
was issued (used to state the no-network-when-unconfigured contract). -/
structure ApiFetch where
  gpus : List GpuRecord
  networkCalled : Bool
  deriving Repr, DecidableEq

/-- RunpodProvider.get_available_gpus_api (src/camd.py lines 114-265):
returns [] without touching the network when the key is absent; otherwise
issues the GraphQL query and returns [] on any query failure, a missing
gpuTypes key, or an MI300X-free type list, and the five built records when
the MI300X entry is found (the loop with break is List.find?). -/
def getAvailableGpusApi (apiKey : String) (r : HttpResult) : ApiFetch :=
  if apiKey = "" then ⟨[], false⟩
  else
    match makeGraphqlQuery apiKey r with
    | none => ⟨[], true⟩
    | some d =>
      match d.gpuTypes with
      | none => ⟨[], true⟩
      | some types =>
        match types.find? isMI300X with
        | none => ⟨[], true⟩
        | some mi300x =>
          ⟨buildApiGpus (mi300x.id.getD "AMD Instinct MI300X OAM") (mi300x.memoryInGb.getD 192), true⟩

/-- RunpodProvider.get_demo_gpus (src/camd.py lines 267-376): the fixed
five-record sample data set, translated literally. -/
def demoGpus : List GpuRecord :=
  [{ provider := "RunPod", gpu_model := "MI300X", gpu_count := 1,
     instance_type := "MI300X-1x", vcpus := 24, memory := "192GB",
     price_per_hour := 249/100, price_per_gpu_hour := 249/100,
     region := "Global", available := false, stock_status := "unavailable",
     features := ["On-demand pricing", "Stock: unavailable", "High demand GPU",
                  "Pre-installed PyTorch + ROCm"],
     api_source := false, demo_data := true, gpu_id := "" },
   { provider := "RunPod", gpu_model := "MI300X", gpu_count := 1,
     instance_type := "MI300X-spot", vcpus := 24, memory := "192GB",
     price_per_hour := 125/100, price_per_gpu_hour := 125/100,
     region := "Global (Spot)", available := true, stock_status := "low",
     features := ["Spot instance (-50%)", "Interruptible", "Stock: low", "Best value"],
     api_source := false, demo_data := true, gpu_id := "" },
   { provider := "RunPod", gpu_model := "MI300X", gpu_count := 2,
     instance_type := "MI300X-2x", vcpus := 48, memory := "384GB",
     price_per_hour := 498/100, price_per_gpu_hour := 249/100,
     region := "Global", available := false, stock_status := "unavailable",
     features := ["2x MI300X cluster", "Infinity Fabric Link", "Stock: unavailable",
                  "384GB total memory"],
     api_source := false, demo_data := true, gpu_id := "" },
   { provider := "RunPod", gpu_model := "MI300X", gpu_count := 4,
     instance_type := "MI300X-4x", vcpus := 96, memory := "768GB",
     price_per_hour := 996/100, price_per_gpu_hour := 249/100,
     region := "Global", available := false, stock_status := "unavailable",
     features := ["4x MI300X cluster", "Full mesh connectivity", "Stock: unavailable",
                  "768GB total memory"],
     api_source := false, demo_data := true, gpu_id := "" },
   { provider := "RunPod", gpu_model := "MI300X", gpu_count := 8,
     instance_type := "MI300X-8x", vcpus := 192, memory := "1536GB",
     price_per_hour := 1992/100, price_per_gpu_hour := 249/100,
     region := "Global", available := false, stock_status := "unavailable",
     features := ["8x MI300X cluster (max)", "1.5TB total memory!", "Extreme high demand",
                  "Rarely available"],
     api_source := false, demo_data := true, gpu_id := "" }]

/-- Outcome of reading and parsing the cache file: absent, corrupt in any
way the except clause at src/camd.py lines 505-506 swallows (unreadable
file, malformed JSON, missing or unparseable timestamp, missing gpus key),
or a parsed entry. -/
inductive CacheRead where
  | missing : CacheRead
  | corrupt : CacheRead
  | entry (timestamp : ℚ) (gpus : List GpuRecord) : CacheRead
  deriving Repr, DecidableEq

/-- Observable outcome of one facade invocation: the returned records,
whether a provider fetch occurred, and the cache state afterwards. -/
structure GetAllResult where
  gpus : List GpuRecord
  fetchOccurred : Bool
  cacheAfter : CacheRead
  deriving Repr, DecidableEq

/-- The fetch-then-cache tail of CheapAMD.get_all_gpus (src/camd.py lines
508-520): fetch from the API, overwrite the cache only when the result is
non-empty, and return the result either way. -/
def fetchAndCache (apiKey : String) (cache : CacheRead) (now : ℚ) (r : HttpResult) : GetAllResult :=
  if (getAvailableGpusApi apiKey r).gpus.isEmpty then
    ⟨(getAvailableGpusApi apiKey r).gpus, true, cache⟩
  else
    ⟨(getAvailableGpusApi apiKey r).gpus, true, CacheRead.entry now ((getAvailableGpusApi apiKey r).gpus)⟩

/-- CheapAMD.get_all_gpus (src/camd.py lines 484-520).  The provider is
none when no provider object was initialised, some apiKey otherwise;
timestamps and the TTL are in minutes.  The demo path returns the sample
data without touching cache or network; an unconfigured provider returns []
at once; a fresh parsed cache entry is returned without a fetch; everything
else falls through to fetchAndCache. -/
def getAllGpus (provider : Option String) (cacheMinutes : ℚ)
    (useCache demoMode : Bool) (cache : CacheRead) (now : ℚ)
    (r : HttpResult) : GetAllResult :=
  if demoMode then ⟨demoGpus, false, cache⟩
  else
    match provider with
    | none => ⟨[], false, cache⟩
    | some apiKey =>
      if isConfigured apiKey = false then ⟨[], false, cache⟩
      else
        match useCache, cache with
        | true, CacheRead.entry ts gpus =>
          if now - ts < cacheMinutes then ⟨gpus, false, cache⟩
          else fetchAndCache apiKey cache now r
        | true, CacheRead.missing => fetchAndCache apiKey cache now r
        | true, CacheRead.corrupt => fetchAndCache apiKey cache now r
        | false, _ => fetchAndCache apiKey cache now r

/-- Whether the facade state has a configured provider (the test at
src/camd.py lines 494-495). -/
def facadeConfigured : Option String → Bool
  | none => false
  | some apiKey => isConfigured apiKey

/-- The comparison key of the price sort at src/camd.py lines 534 and 555. -/
def priceLE (a b : GpuRecord) : Bool :=
  decide (a.price_per_gpu_hour ≤ b.price_per_gpu_hour)

/-- The Python stable ascending sort by price_per_gpu_hour, modelled by the
stable mergeSort of the Lean library. -/
def sortByPrice (l : List GpuRecord) : List GpuRecord := l.mergeSort priceLE

/-- CheapAMD.get_gpus_simple (src/camd.py lines 543-557).  configLoaded is
the result of load_config; the remaining arguments feed get_all_gpus, whose
use_cache argument is left at its default of True. -/
def getGpusSimple (configLoaded : Bool) (provider : Option String) (cacheMinutes : ℚ)
    (demoMode : Bool) (cache : CacheRead) (now : ℚ) (r : HttpResult) : List GpuRecord :=
  if demoMode = false ∧ configLoaded = false then []
  else if ((getAllGpus provider cacheMinutes true demoMode cache now r).gpus).isEmpty then []
  else sortByPrice ((getAllGpus provider cacheMinutes true demoMode cache now r).gpus)

/-- One CSV line of CheapAMD.get_gpus_string (src/camd.py line 538). -/
def gpuCsvLine (g : GpuRecord) : String :=
  g.provider ++ "," ++ g.gpu_model ++ "," ++ toString g.gpu_count ++ "," ++
    fmt2 g.price_per_hour ++ "," ++ toString g.vcpus ++ "," ++ g.memory ++ "," ++
    g.instance_type ++ "," ++ g.region

/-- CheapAMD.get_gpus_string (src/camd.py lines 522-541). -/
def getGpusString (configLoaded : Bool) (provider : Option String) (cacheMinutes : ℚ)
    (demoMode : Bool) (cache : CacheRead) (now : ℚ) (r : HttpResult) : String :=
  if demoMode = false ∧ configLoaded = false then "No configuration found"
  else if ((getAllGpus provider cacheMinutes true demoMode cache now r).gpus).isEmpty then
    "No GPUs found"
  else
    String.intercalate "\n"
      ((sortByPrice ((getAllGpus provider cacheMinutes true demoMode cache now r).gpus)).map
        gpuCsvLine)


lemma fetchAndCache_fetchOccurred (apiKey : String) (cache : CacheRead) (now : ℚ)
    (r : HttpResult) : (fetchAndCache apiKey cache now r).fetchOccurred = true := by
  unfold fetchAndCache
  split <;> rfl

lemma fetchAndCache_gpus (apiKey : String) (cache : CacheRead) (now : ℚ)
    (r : HttpResult) :
    (fetchAndCache apiKey cache now r).gpus = (getAvailableGpusApi apiKey r).gpus := by
  unfold fetchAndCache
  split <;> rfl

lemma fetchAndCache_cacheAfter_of_empty (apiKey : String) (cache : CacheRead) (now : ℚ)
    (r : HttpResult) (h : (getAvailableGpusApi apiKey r).gpus = []) :
    (fetchAndCache apiKey cache now r).cacheAfter = cache := by
  unfold fetchAndCache
  simp [h]

lemma isConfigured_false_iff (apiKey : String) :
    isConfigured apiKey = false ↔ apiKey = "" := by
  simp [isConfigured]

lemma getAllGpus_demo (prov : Option String) (cm : ℚ) (uc : Bool) (cache : CacheRead)
    (now : ℚ) (r : HttpResult) :
    getAllGpus prov cm uc true cache now r = ⟨demoGpus, false, cache⟩ := by
  unfold getAllGpus
  simp

lemma getAllGpus_noProvider (cm : ℚ) (uc : Bool) (cache : CacheRead)
    (now : ℚ) (r : HttpResult) :
    getAllGpus none cm uc false cache now r = ⟨[], false, cache⟩ := by
  unfold getAllGpus
  simp

lemma getAllGpus_unconfigured (apiKey : String) (h : isConfigured apiKey = false)
    (cm : ℚ) (uc : Bool) (cache : CacheRead) (now : ℚ) (r : HttpResult) :
    getAllGpus (some apiKey) cm uc false cache now r = ⟨[], false, cache⟩ := by
  unfold getAllGpus
  simp [h]

lemma getAllGpus_noCache (apiKey : String) (hk : isConfigured apiKey = true)
    (cm : ℚ) (cache : CacheRead) (now : ℚ) (r : HttpResult) :
    getAllGpus (some apiKey) cm false false cache now r = fetchAndCache apiKey cache now r := by
  unfold getAllGpus
  simp [hk]

lemma getAllGpus_cacheMissing (apiKey : String) (hk : isConfigured apiKey = true)
    (cm : ℚ) (now : ℚ) (r : HttpResult) :
    getAllGpus (some apiKey) cm true false CacheRead.missing now r =
      fetchAndCache apiKey CacheRead.missing now r := by
  unfold getAllGpus
  simp [hk]

lemma getAllGpus_cacheCorrupt (apiKey : String) (hk : isConfigured apiKey = true)
    (cm : ℚ) (now : ℚ) (r : HttpResult) :
    getAllGpus (some apiKey) cm true false CacheRead.corrupt now r =
      fetchAndCache apiKey CacheRead.corrupt now r := by
  unfold getAllGpus
  simp [hk]

lemma getAllGpus_cacheEntry (apiKey : String) (hk : isConfigured apiKey = true)
    (cm : ℚ) (ts : ℚ) (gpus : List GpuRecord) (now : ℚ) (r : HttpResult) :
    getAllGpus (some apiKey) cm true false (CacheRead.entry ts gpus) now r =
      if now - ts < cm then ⟨gpus, false, CacheRead.entry ts gpus⟩
      else fetchAndCache apiKey (CacheRead.entry ts gpus) now r := by
  unfold getAllGpus
  simp [hk]

/-- Claim C1: with use_cache true and a configured provider, the facade
returns the cached records without a provider fetch exactly when the cache
entry exists, parses, and now minus its timestamp is strictly below the
TTL; at an age equal to the TTL the entry is not fresh and a fetch occurs. -/
theorem getAllGpus_cache_policy (apiKey : String) (hk : isConfigured apiKey = true)
    (cm : ℚ) (cache : CacheRead) (now : ℚ) (r : HttpResult) :
    (((getAllGpus (some apiKey) cm true false cache now r).fetchOccurred = false ∧
       ∃ ts gpus, cache = CacheRead.entry ts gpus ∧
         (getAllGpus (some apiKey) cm true false cache now r).gpus = gpus) ↔
      ∃ ts gpus, cache = CacheRead.entry ts gpus ∧ now - ts < cm) ∧
    (∀ ts gpus, cache = CacheRead.entry ts gpus → now - ts = cm →
      (getAllGpus (some apiKey) cm true false cache now r).fetchOccurred = true) := by
  cases cache with
  | missing =>
    rw [getAllGpus_cacheMissing apiKey hk]
    simp [fetchAndCache_fetchOccurred]
  | corrupt =>
    rw [getAllGpus_cacheCorrupt apiKey hk]
    simp [fetchAndCache_fetchOccurred]
  | entry ts gpus =>
    rw [getAllGpus_cacheEntry apiKey hk]
    by_cases hfresh : now - ts < cm
    · rw [if_pos hfresh]
      refine ⟨⟨fun _ => ⟨ts, gpus, rfl, hfresh⟩, fun _ => ⟨rfl, ts, gpus, rfl, rfl⟩⟩, ?_⟩
      intro ts2 gpus2 heq heq2
      cases heq
      rw [heq2] at hfresh
      exact absurd hfresh (lt_irrefl cm)
    · rw [if_neg hfresh]
      refine ⟨⟨?_, ?_⟩, fun _ _ _ _ => fetchAndCache_fetchOccurred _ _ _ _⟩
      · intro h
        rw [fetchAndCache_fetchOccurred] at h
        exact absurd h.1 (by simp)
      · rintro ⟨ts2, gpus2, heq, hlt⟩
        cases heq
        exact absurd hlt hfresh

/-- Witness for claim C1 at a concrete configured state whose cache entry
has age exactly equal to the TTL. -/
theorem getAllGpus_cache_policy_witness :
    isConfigured "k" = true ∧
    ((((getAllGpus (some "k") 5 true false (CacheRead.entry 0 []) 5 HttpResult.exn).fetchOccurred = false ∧
        ∃ ts gpus, CacheRead.entry (0 : ℚ) ([] : List GpuRecord) = CacheRead.entry ts gpus ∧
          (getAllGpus (some "k") 5 true false (CacheRead.entry 0 []) 5 HttpResult.exn).gpus = gpus) ↔
       ∃ ts gpus, CacheRead.entry (0 : ℚ) ([] : List GpuRecord) = CacheRead.entry ts gpus ∧
         (5 : ℚ) - ts < 5) ∧
     ∀ ts gpus, CacheRead.entry (0 : ℚ) ([] : List GpuRecord) = CacheRead.entry ts gpus →
       (5 : ℚ) - ts = 5 →
       (getAllGpus (some "k") 5 true false (CacheRead.entry 0 []) 5 HttpResult.exn).fetchOccurred = true) :=
  ⟨by decide, getAllGpus_cache_policy "k" (by decide) 5 (CacheRead.entry 0 []) 5 HttpResult.exn⟩

/-- Claim C2: when the aggregation yields an empty record sequence (provider
unconfigured, or a fetch that ran and produced nothing), the cache is left
exactly as it was and the records the aggregation produced are empty. -/
theorem getAllGpus_empty_aggregation_frame (prov : Option String) (cm : ℚ) (uc : Bool)
    (cache : CacheRead) (now : ℚ) (r : HttpResult) :
    (facadeConfigured prov = false →
      (getAllGpus prov cm uc false cache now r).cacheAfter = cache ∧
      (getAllGpus prov cm uc false cache now r).gpus = []) ∧
    (∀ apiKey, prov = some apiKey → (getAvailableGpusApi apiKey r).gpus = [] →
      (getAllGpus prov cm uc false cache now r).cacheAfter = cache ∧
      ((getAllGpus prov cm uc false cache now r).fetchOccurred = true →
        (getAllGpus prov cm uc false cache now r).gpus = [])) := by
  cases prov with
  | none =>
    refine ⟨fun _ => ?_, fun apiKey h => absurd h (by simp)⟩
    rw [getAllGpus_noProvider]
    exact ⟨rfl, rfl⟩
  | some apiKey =>
    constructor
    · intro hcfg
      have hcfg2 : isConfigured apiKey = false := hcfg
      rw [getAllGpus_unconfigured apiKey hcfg2]
      exact ⟨rfl, rfl⟩
    · intro apiKey2 heq hempty
      injection heq with heq2
      subst heq2
      cases hcfg : isConfigured apiKey with
      | false =>
        rw [getAllGpus_unconfigured apiKey hcfg]
        exact ⟨rfl, fun h => absurd h (by simp)⟩
      | true =>
        have hfc : (fetchAndCache apiKey cache now r).cacheAfter = cache ∧
            ((fetchAndCache apiKey cache now r).fetchOccurred = true →
              (fetchAndCache apiKey cache now r).gpus = []) :=
          ⟨fetchAndCache_cacheAfter_of_empty _ _ _ _ hempty,
           fun _ => (fetchAndCache_gpus _ _ _ _).trans hempty⟩
        cases uc with
        | false =>
          rw [getAllGpus_noCache apiKey hcfg]
          exact hfc
        | true =>
          cases cache with
          | missing =>
            rw [getAllGpus_cacheMissing apiKey hcfg]
            exact hfc
          | corrupt =>
            rw [getAllGpus_cacheCorrupt apiKey hcfg]
            exact hfc
          | entry ts gpus =>
            rw [getAllGpus_cacheEntry apiKey hcfg]
            by_cases hfresh : now - ts < cm
            · rw [if_pos hfresh]
              exact ⟨rfl, fun h => absurd h (by simp)⟩
            · rw [if_neg hfresh]
              exact hfc

/-- Witness for claim C2 at a concrete state: configured provider, failing
fetch, pre-existing non-empty cache entry, cache bypassed. -/
theorem getAllGpus_empty_aggregation_frame_witness :
    (some "k" : Option String) = some "k" ∧
    (getAvailableGpusApi "k" HttpResult.exn).gpus = [] ∧
    (getAllGpus (some "k") 5 false false (CacheRead.entry 0 demoGpus) 9 HttpResult.exn).cacheAfter =
      CacheRead.entry 0 demoGpus ∧
    ((getAllGpus (some "k") 5 false false (CacheRead.entry 0 demoGpus) 9 HttpResult.exn).fetchOccurred = true →
      (getAllGpus (some "k") 5 false false (CacheRead.entry 0 demoGpus) 9 HttpResult.exn).gpus = []) :=
  ⟨rfl, by decide,
   ((getAllGpus_empty_aggregation_frame (some "k") 5 false (CacheRead.entry 0 demoGpus) 9
      HttpResult.exn).2 "k" rfl (by decide)).1,
   ((getAllGpus_empty_aggregation_frame (some "k") 5 false (CacheRead.entry 0 demoGpus) 9
      HttpResult.exn).2 "k" rfl (by decide)).2⟩

/-- Claim C6: an unconfigured provider (empty or absent credential) fetches
nothing and makes no network call, and the facade with no configured
provider returns the empty sequence without any provider fetch. -/
theorem unconfigured_returns_empty (apiKey : String) (h : isConfigured apiKey = false) :
    (∀ r, getAvailableGpusApi apiKey r = ⟨[], false⟩) ∧
    ∀ (prov : Option String), facadeConfigured prov = false →
    ∀ (cm : ℚ) (uc : Bool) (cache : CacheRead) (now : ℚ) (r : HttpResult),
      (getAllGpus prov cm uc false cache now r).gpus = [] ∧
      (getAllGpus prov cm uc false cache now r).fetchOccurred = false := by
  have hempty : apiKey = "" := (isConfigured_false_iff apiKey).mp h
  constructor
  · intro r
    unfold getAvailableGpusApi
    simp [hempty]
  · intro prov hcfg cm uc cache now r
    cases prov with
    | none =>
      rw [getAllGpus_noProvider]
      exact ⟨rfl, rfl⟩
    | some apiKey2 =>
      have hcfg2 : isConfigured apiKey2 = false := hcfg
      rw [getAllGpus_unconfigured apiKey2 hcfg2]
      exact ⟨rfl, rfl⟩

/-- Witness for claim C6 at the empty credential. -/
theorem unconfigured_returns_empty_witness :
    isConfigured "" = false ∧
    getAvailableGpusApi "" HttpResult.exn = ⟨[], false⟩ ∧
    facadeConfigured (some "") = false ∧
    (getAllGpus (some "") 5 true false CacheRead.missing 0 HttpResult.exn).gpus = [] ∧
    (getAllGpus (some "") 5 true false CacheRead.missing 0 HttpResult.exn).fetchOccurred = false :=
  ⟨by decide,
   (unconfigured_returns_empty "" (by decide)).1 HttpResult.exn,
   by decide,
   ((unconfigured_returns_empty "" (by decide)).2 (some "") (by decide) 5 true
     CacheRead.missing 0 HttpResult.exn).1,
   ((unconfigured_returns_empty "" (by decide)).2 (some "") (by decide) 5 true
     CacheRead.missing 0 HttpResult.exn).2⟩

/-- Claim C7: an absent or corrupt cache file behaves as a cache miss for
every use_cache setting: the configured facade proceeds to the provider
fetch and returns its result, and no error propagates (the embedding is a
total function on every cache-read outcome). -/
theorem cache_corrupt_is_miss (apiKey : String) (hk : isConfigured apiKey = true)
    (cache : CacheRead) (hc : cache = CacheRead.missing ∨ cache = CacheRead.corrupt)
    (cm : ℚ) (uc : Bool) (now : ℚ) (r : HttpResult) :
    (getAllGpus (some apiKey) cm uc false cache now r).fetchOccurred = true ∧
    (getAllGpus (some apiKey) cm uc false cache now r).gpus = (getAvailableGpusApi apiKey r).gpus := by
  have hgoal : ∀ c : CacheRead,
      (fetchAndCache apiKey c now r).fetchOccurred = true ∧
      (fetchAndCache apiKey c now r).gpus = (getAvailableGpusApi apiKey r).gpus :=
    fun c => ⟨fetchAndCache_fetchOccurred _ _ _ _, fetchAndCache_gpus _ _ _ _⟩
  cases uc with
  | false =>
    rw [getAllGpus_noCache apiKey hk]
    exact hgoal _
  | true =>
    rcases hc with hc | hc <;> subst hc
    · rw [getAllGpus_cacheMissing apiKey hk]
      exact hgoal _
    · rw [getAllGpus_cacheCorrupt apiKey hk]
      exact hgoal _

/-- Witness for claim C7 at a concrete corrupt cache. -/
theorem cache_corrupt_is_miss_witness :
    isConfigured "k" = true ∧
    (CacheRead.corrupt = CacheRead.missing ∨ CacheRead.corrupt = CacheRead.corrupt) ∧
    (getAllGpus (some "k") 5 true false CacheRead.corrupt 0 HttpResult.exn).fetchOccurred = true ∧
    (getAllGpus (some "k") 5 true false CacheRead.corrupt 0 HttpResult.exn).gpus =
      (getAvailableGpusApi "k" HttpResult.exn).gpus :=
  ⟨by decide, Or.inr rfl,
   (cache_corrupt_is_miss "k" (by decide) CacheRead.corrupt (Or.inr rfl) 5 true 0 HttpResult.exn).1,
   (cache_corrupt_is_miss "k" (by decide) CacheRead.corrupt (Or.inr rfl) 5 true 0 HttpResult.exn).2⟩

lemma getAvailableGpusApi_gpus_shape (apiKey : String) (r : HttpResult) :
    (getAvailableGpusApi apiKey r).gpus = [] ∨
    ∃ mi300x : GpuType, (getAvailableGpusApi apiKey r).gpus =
      buildApiGpus (mi300x.id.getD "AMD Instinct MI300X OAM") (mi300x.memoryInGb.getD 192) := by
  unfold getAvailableGpusApi
  by_cases hk : apiKey = ""
  · rw [if_pos hk]
    exact Or.inl rfl
  · rw [if_neg hk]
    cases makeGraphqlQuery apiKey r with
    | none => exact Or.inl rfl
    | some d =>
      cases hgt : d.gpuTypes with
      | none => simp [hgt]
      | some types =>
        cases hfind : types.find? isMI300X with
        | none => simp [hgt, hfind]
        | some mi300x =>
          simp only [hgt, hfind]
          exact Or.inr ⟨mi300x, rfl⟩

/-- Every outcome of the adapter fetch that the error-handling contract
enumerates: a raised network or timeout exception, a non-200 status,
an unparseable response body, a present GraphQL errors field, or a
parseable payload without a usable MI300X gpuTypes entry. -/
def fetchFailure (r : HttpResult) : Prop :=
  r = HttpResult.exn ∨
  (∃ s b, r = HttpResult.resp s b ∧ s ≠ 200) ∨
  r = HttpResult.resp 200 BodyJson.invalid ∨
  (∃ d, r = HttpResult.resp 200 (BodyJson.gql true d)) ∨
  r = HttpResult.resp 200 (BodyJson.gql false none) ∨
  r = HttpResult.resp 200 (BodyJson.gql false (some ⟨none⟩)) ∨
  (∃ types, r = HttpResult.resp 200 (BodyJson.gql false (some ⟨some types⟩)) ∧
    types.find? isMI300X = none)

/-- Claim C5: on every enumerated fetch-failure outcome the adapter yields
the empty record list instead of raising, and the facade consequently
returns a record sequence (cached or empty) and never throws: the embedded
facade is total and its result below is exhaustively described. -/
theorem adapter_failure_yields_empty (apiKey : String) (r : HttpResult) (hf : fetchFailure r) :
    (getAvailableGpusApi apiKey r).gpus = [] ∧
    ∀ (cm : ℚ) (uc : Bool) (cache : CacheRead) (now : ℚ),
      (getAllGpus (some apiKey) cm uc false cache now r).gpus = [] ∨
      ∃ ts gpus, cache = CacheRead.entry ts gpus ∧
        (getAllGpus (some apiKey) cm uc false cache now r).gpus = gpus := by
  have hempty : (getAvailableGpusApi apiKey r).gpus = [] := by
    by_cases hk : apiKey = ""
    · unfold getAvailableGpusApi
      rw [if_pos hk]
    · rcases hf with h | ⟨s, b, h, hs⟩ | h | ⟨d, h⟩ | h | h | ⟨types, h, hfind⟩ <;> subst h <;>
        unfold getAvailableGpusApi makeGraphqlQuery
      · simp [hk]
      · simp [hk, hs]
      · simp [hk]
      · simp [hk]
      · simp [hk]
      · simp [hk]
      · simp only [if_neg hk]
        simp [hfind]
  refine ⟨hempty, ?_⟩
  intro cm uc cache now
  cases hcfg : isConfigured apiKey with
  | false =>
    rw [getAllGpus_unconfigured apiKey hcfg]
    exact Or.inl rfl
  | true =>
    cases uc with
    | false =>
      rw [getAllGpus_noCache apiKey hcfg]
      exact Or.inl ((fetchAndCache_gpus _ _ _ _).trans hempty)
    | true =>
      cases cache with
      | missing =>
        rw [getAllGpus_cacheMissing apiKey hcfg]
        exact Or.inl ((fetchAndCache_gpus _ _ _ _).trans hempty)
      | corrupt =>
        rw [getAllGpus_cacheCorrupt apiKey hcfg]
        exact Or.inl ((fetchAndCache_gpus _ _ _ _).trans hempty)
      | entry ts gpus =>
        rw [getAllGpus_cacheEntry apiKey hcfg]
        by_cases hfresh : now - ts < cm
        · rw [if_pos hfresh]
          exact Or.inr ⟨ts, gpus, rfl, rfl⟩
        · rw [if_neg hfresh]
          exact Or.inl ((fetchAndCache_gpus _ _ _ _).trans hempty)

/-- Witness for claim C5 at a concrete configured key and a raised network
exception. -/
theorem adapter_failure_yields_empty_witness :
    fetchFailure HttpResult.exn ∧
    (getAvailableGpusApi "k" HttpResult.exn).gpus = [] ∧
    ((getAllGpus (some "k") 5 true false CacheRead.missing 0 HttpResult.exn).gpus = [] ∨
      ∃ ts gpus, CacheRead.missing = CacheRead.entry ts gpus ∧
        (getAllGpus (some "k") 5 true false CacheRead.missing 0 HttpResult.exn).gpus = gpus) :=
  ⟨Or.inl rfl,
   (adapter_failure_yields_empty "k" HttpResult.exn (Or.inl rfl)).1,
   (adapter_failure_yields_empty "k" HttpResult.exn (Or.inl rfl)).2 5 true CacheRead.missing 0⟩

/-- Sample gpuTypes entry matching the MI300X detection test, with the
memory the live catalogue advertises. -/
def sampleMI300X : GpuType :=
  ⟨some "AMD Instinct MI300X OAM", some "MI300X", some 192⟩

/-- Sample successful HTTP outcome: status 200, no errors, a data member
whose gpuTypes list contains exactly the MI300X entry. -/
def samplePayload : HttpResult :=
  HttpResult.resp 200 (BodyJson.gql false (some ⟨some [sampleMI300X]⟩))

lemma getAvailableGpusApi_found (apiKey : String) (hk : apiKey ≠ "")
    (types : List GpuType) (mi300x : GpuType)
    (hfind : types.find? isMI300X = some mi300x) :
    (getAvailableGpusApi apiKey
        (HttpResult.resp 200 (BodyJson.gql false (some ⟨some types⟩)))).gpus =
      buildApiGpus (mi300x.id.getD "AMD Instinct MI300X OAM") (mi300x.memoryInGb.getD 192) := by
  unfold getAvailableGpusApi makeGraphqlQuery
  simp only [if_neg hk]
  simp [hfind]

/-- Claim C3: every multi-unit record the adapter derives scales the base
per-unit price, memory and vCPUs linearly in the unit count while keeping
the per-unit price at the base price, and each such record for unit counts
2, 4 and 8 is produced by the live fetch; at 4 units from the 2.49 base the
totals are 9.96 per hour, 2.49 per unit hour, and four times the unit
memory. -/
theorem multi_unit_derivation (apiKey : String) (hk : isConfigured apiKey = true)
    (types : List GpuType) (mi300x : GpuType)
    (hfind : types.find? isMI300X = some mi300x)
    (n : Nat) (hn : n ∈ ([2, 4, 8] : List Nat)) :
    (apiMultiGpu (mi300x.id.getD "AMD Instinct MI300X OAM") (mi300x.memoryInGb.getD 192)
        defaultMI300XPrice n ∈
      (getAvailableGpusApi apiKey
        (HttpResult.resp 200 (BodyJson.gql false (some ⟨some types⟩)))).gpus) ∧
    (∀ (gpuId : String) (memoryGb : Nat) (basePrice : ℚ),
      (apiMultiGpu gpuId memoryGb basePrice n).price_per_hour = basePrice * n ∧
      (apiMultiGpu gpuId memoryGb basePrice n).price_per_gpu_hour = basePrice ∧
      (apiMultiGpu gpuId memoryGb basePrice n).memory = toString (memoryGb * n) ++ "GB" ∧
      (apiMultiGpu gpuId memoryGb basePrice n).vcpus = 24 * n) ∧
    (apiMultiGpu "AMD Instinct MI300X OAM" 192 defaultMI300XPrice 4).price_per_hour = 996/100 ∧
    (apiMultiGpu "AMD Instinct MI300X OAM" 192 defaultMI300XPrice 4).price_per_gpu_hour = 249/100 ∧
    (apiMultiGpu "AMD Instinct MI300X OAM" 192 defaultMI300XPrice 4).memory =
      toString (4 * 192) ++ "GB" := by
  have hk2 : apiKey ≠ "" := by simpa [isConfigured] using hk
  refine ⟨?_, ?_, ?_, rfl, ?_⟩
  · rw [getAvailableGpusApi_found apiKey hk2 types mi300x hfind]
    unfold buildApiGpus
    refine List.mem_cons_of_mem _ (List.mem_cons_of_mem _ ?_)
    exact List.mem_map_of_mem _ hn
  · intro gpuId memoryGb basePrice
    exact ⟨rfl, rfl, rfl, rfl⟩
  · show defaultMI300XPrice * (4 : ℚ) = 996/100
    norm_num [defaultMI300XPrice]
  · show toString (192 * 4) ++ "GB" = toString (4 * 192) ++ "GB"
    norm_num

/-- Witness for claim C3 at the sample payload, unit count 4. -/
theorem multi_unit_derivation_witness :
    isConfigured "k" = true ∧
    ([sampleMI300X].find? isMI300X = some sampleMI300X) ∧
    (4 ∈ ([2, 4, 8] : List Nat)) ∧
    (apiMultiGpu (sampleMI300X.id.getD "AMD Instinct MI300X OAM")
        (sampleMI300X.memoryInGb.getD 192) defaultMI300XPrice 4 ∈
      (getAvailableGpusApi "k"
        (HttpResult.resp 200 (BodyJson.gql false (some ⟨some [sampleMI300X]⟩)))).gpus) ∧
    (apiMultiGpu "AMD Instinct MI300X OAM" 192 defaultMI300XPrice 4).price_per_hour = 996/100 :=
  ⟨by decide, by decide, by decide,
   (multi_unit_derivation "k" (by decide) [sampleMI300X] sampleMI300X (by decide) 4
     (by decide)).1,
   (multi_unit_derivation "k" (by decide) [sampleMI300X] sampleMI300X (by decide) 4
     (by decide)).2.2.1⟩

/-- Claim C10: a successful live fetch whose gpuTypes list contains an
MI300X entry returns exactly five records with unit counts 1, 1 (the spot
record at half the 2.49 base, 1.245), 2, 4 and 8, all of model MI300X,
available, with stock status check_availability; the live path never emits
an unavailable record. -/
theorem live_api_five_records (apiKey : String) (hk : isConfigured apiKey = true)
    (types : List GpuType) (mi300x : GpuType)
    (hfind : types.find? isMI300X = some mi300x) :
    ((getAvailableGpusApi apiKey
        (HttpResult.resp 200 (BodyJson.gql false (some ⟨some types⟩)))).gpus).length = 5 ∧
    ((getAvailableGpusApi apiKey
        (HttpResult.resp 200 (BodyJson.gql false (some ⟨some types⟩)))).gpus).map
      (fun g => g.gpu_count) = [1, 1, 2, 4, 8] ∧
    (∃ spot, ((getAvailableGpusApi apiKey
        (HttpResult.resp 200 (BodyJson.gql false (some ⟨some types⟩)))).gpus)[1]? = some spot ∧
      spot.instance_type = "MI300X-spot" ∧
      spot.price_per_hour = 1245/1000 ∧
      spot.price_per_gpu_hour = 1245/1000 ∧
      spot.price_per_hour = defaultMI300XPrice * (1/2)) ∧
    ∀ g ∈ (getAvailableGpusApi apiKey
        (HttpResult.resp 200 (BodyJson.gql false (some ⟨some types⟩)))).gpus,
      g.gpu_model = "MI300X" ∧ g.available = true ∧ g.stock_status = "check_availability" := by
  have hk2 : apiKey ≠ "" := by simpa [isConfigured] using hk
  rw [getAvailableGpusApi_found apiKey hk2 types mi300x hfind]
  refine ⟨rfl, rfl, ?_, ?_⟩
  · refine ⟨apiSpotGpu (mi300x.id.getD "AMD Instinct MI300X OAM")
      (mi300x.memoryInGb.getD 192) defaultMI300XPrice, rfl, rfl, ?_, ?_, rfl⟩
    · show defaultMI300XPrice * (1/2 : ℚ) = 1245/1000
      norm_num [defaultMI300XPrice]
    · show defaultMI300XPrice * (1/2 : ℚ) = 1245/1000
      norm_num [defaultMI300XPrice]
  · intro g hg
    simp only [buildApiGpus, List.map, List.mem_cons, List.mem_map,
      List.mem_singleton, List.not_mem_nil, or_false] at hg
    rcases hg with rfl | rfl | rfl | rfl | rfl <;> exact ⟨rfl, rfl, rfl⟩

/-- Witness for claim C10 at the sample payload. -/
theorem live_api_five_records_witness :
    isConfigured "k" = true ∧
    ([sampleMI300X].find? isMI300X = some sampleMI300X) ∧
    ((getAvailableGpusApi "k"
        (HttpResult.resp 200 (BodyJson.gql false (some ⟨some [sampleMI300X]⟩)))).gpus).length = 5 ∧
    ((getAvailableGpusApi "k"
        (HttpResult.resp 200 (BodyJson.gql false (some ⟨some [sampleMI300X]⟩)))).gpus).map
      (fun g => g.gpu_count) = [1, 1, 2, 4, 8] :=
  ⟨by decide, by decide,
   (live_api_five_records "k" (by decide) [sampleMI300X] sampleMI300X (by decide)).1,
   (live_api_five_records "k" (by decide) [sampleMI300X] sampleMI300X (by decide)).2.1⟩

/-- Counterexample for claim C8: in the record list of a successful live
fetch, the single-unit base record (position 0, the directly observed
single-unit quote) and the derived 4-unit record (position 3) agree on
every boolean field of the schema (api_source, demo_data, available), so no
boolean flag distinguishes derived multi-unit records from the observed
single-unit record. -/
theorem derived_flag_counterexample :
    ∃ robs rder : GpuRecord,
      ((getAvailableGpusApi "k" samplePayload).gpus)[0]? = some robs ∧
      ((getAvailableGpusApi "k" samplePayload).gpus)[3]? = some rder ∧
      robs.gpu_count = 1 ∧ robs.instance_type = "MI300X-1x" ∧
      rder.gpu_count = 4 ∧ rder.instance_type = "MI300X-4x" ∧
      robs.api_source = rder.api_source ∧
      robs.demo_data = rder.demo_data ∧
      robs.available = rder.available := by
  exact ⟨apiSingleGpu "AMD Instinct MI300X OAM" 192 defaultMI300XPrice,
    apiMultiGpu "AMD Instinct MI300X OAM" 192 defaultMI300XPrice 4,
    rfl, rfl, rfl, rfl, rfl, rfl, rfl, rfl, rfl⟩

/-- Claim C8 (amended): every record of the live API path, the multi-unit
derivations included, carries api_source = true and demo_data = false,
which distinguishes live-fetched records from the demo data set (whose
records carry demo_data = true and api_source = false); no boolean field
distinguishes the derived multi-unit records from the single-unit record
within the same live result. -/
theorem api_records_flagged (apiKey : String) (r : HttpResult) :
    (∀ g ∈ (getAvailableGpusApi apiKey r).gpus, g.api_source = true ∧ g.demo_data = false) ∧
    (∀ g ∈ demoGpus, g.demo_data = true ∧ g.api_source = false) := by
  constructor
  · intro g hg
    rcases getAvailableGpusApi_gpus_shape apiKey r with hsh | ⟨mi, hsh⟩ <;> rw [hsh] at hg
    · exact absurd hg (List.not_mem_nil g)
    · simp only [buildApiGpus, List.mem_cons, List.mem_map] at hg
      rcases hg with rfl | rfl | ⟨n, hn, rfl⟩ <;> exact ⟨rfl, rfl⟩
  · intro g hg
    simp only [demoGpus, List.mem_cons, List.not_mem_nil, or_false] at hg
    rcases hg with rfl | rfl | rfl | rfl | rfl <;> exact ⟨rfl, rfl⟩

/-- Witness for the amended claim C8 at a concrete live record and a
concrete demo record. -/
lemma apiSingleGpu_mem_sample :
    apiSingleGpu "AMD Instinct MI300X OAM" 192 defaultMI300XPrice ∈
      (getAvailableGpusApi "k" samplePayload).gpus := by
  rw [show samplePayload =
        HttpResult.resp 200 (BodyJson.gql false (some ⟨some [sampleMI300X]⟩)) from rfl,
      getAvailableGpusApi_found "k" (by decide) [sampleMI300X] sampleMI300X (by decide)]
  exact List.mem_cons_self _ _

theorem api_records_flagged_witness :
    (apiSingleGpu "AMD Instinct MI300X OAM" 192 defaultMI300XPrice ∈
      (getAvailableGpusApi "k" samplePayload).gpus) ∧
    ((apiSingleGpu "AMD Instinct MI300X OAM" 192 defaultMI300XPrice).api_source = true ∧
     (apiSingleGpu "AMD Instinct MI300X OAM" 192 defaultMI300XPrice).demo_data = false) :=
  ⟨apiSingleGpu_mem_sample, (api_records_flagged "k" samplePayload).1 _ apiSingleGpu_mem_sample⟩

/-- Claim C9: for every record an adapter produces (live path at any
outcome, or demo path), the available flag is a function of the record's
stock data (it equals the test that the stock status is not the string
unavailable, so it is never set independently of that data), and whenever
available is true the region and stock information are non-empty. -/
theorem available_follows_stock (g : GpuRecord)
    (hg : (∃ apiKey r, g ∈ (getAvailableGpusApi apiKey r).gpus) ∨ g ∈ demoGpus) :
    g.available = decide (g.stock_status ≠ "unavailable") ∧
    (g.available = true → g.region ≠ "" ∧ g.stock_status ≠ "") := by
  rcases hg with ⟨apiKey, r, hg⟩ | hg
  · rcases getAvailableGpusApi_gpus_shape apiKey r with hsh | ⟨mi, hsh⟩ <;> rw [hsh] at hg
    · exact absurd hg (List.not_mem_nil g)
    · simp only [buildApiGpus, List.mem_cons, List.mem_map] at hg
      rcases hg with rfl | rfl | ⟨n, hn, rfl⟩
      · exact ⟨rfl, fun _ => ⟨by show ("Global" : String) ≠ ""; decide,
          by show ("check_availability" : String) ≠ ""; decide⟩⟩
      · exact ⟨rfl, fun _ => ⟨by show ("Global (Spot)" : String) ≠ ""; decide,
          by show ("check_availability" : String) ≠ ""; decide⟩⟩
      · exact ⟨rfl, fun _ => ⟨by show ("Global" : String) ≠ ""; decide,
          by show ("check_availability" : String) ≠ ""; decide⟩⟩
  · simp only [demoGpus, List.mem_cons, List.not_mem_nil, or_false] at hg
    rcases hg with rfl | rfl | rfl | rfl | rfl <;> exact ⟨by decide, by decide⟩

/-- Witness for claim C9 at the concrete single-unit live record. -/
theorem available_follows_stock_witness :
    ((∃ apiKey r, apiSingleGpu "AMD Instinct MI300X OAM" 192 defaultMI300XPrice ∈
        (getAvailableGpusApi apiKey r).gpus) ∨
      apiSingleGpu "AMD Instinct MI300X OAM" 192 defaultMI300XPrice ∈ demoGpus) ∧
    ((apiSingleGpu "AMD Instinct MI300X OAM" 192 defaultMI300XPrice).available =
      decide ((apiSingleGpu "AMD Instinct MI300X OAM" 192
        defaultMI300XPrice).stock_status ≠ "unavailable") ∧
     ((apiSingleGpu "AMD Instinct MI300X OAM" 192 defaultMI300XPrice).available = true →
      (apiSingleGpu "AMD Instinct MI300X OAM" 192 defaultMI300XPrice).region ≠ "" ∧
      (apiSingleGpu "AMD Instinct MI300X OAM" 192 defaultMI300XPrice).stock_status ≠ "")) :=
  ⟨Or.inl ⟨"k", samplePayload, apiSingleGpu_mem_sample⟩,
   available_follows_stock _ (Or.inl ⟨"k", samplePayload, apiSingleGpu_mem_sample⟩)⟩

lemma priceLE_trans : ∀ a b c : GpuRecord, priceLE a b → priceLE b c → priceLE a c := by
  intro a b c hab hbc
  simp only [priceLE, decide_eq_true_eq] at hab hbc ⊢
  exact le_trans hab hbc

lemma priceLE_total : ∀ a b : GpuRecord, priceLE a b || priceLE b a := by
  intro a b
  simp only [priceLE]
  rcases le_total a.price_per_gpu_hour b.price_per_gpu_hour with h | h <;> simp [h]

lemma sortByPrice_sorted (l : List GpuRecord) :
    (sortByPrice l).Pairwise (fun a b => a.price_per_gpu_hour ≤ b.price_per_gpu_hour) := by
  have h := List.sorted_mergeSort priceLE_trans priceLE_total l
  exact h.imp (fun hab => by simpa [priceLE] using hab)

lemma sortByPrice_stable (l : List GpuRecord) (a b : GpuRecord)
    (hab : a.price_per_gpu_hour = b.price_per_gpu_hour)
    (hsub : List.Sublist [a, b] l) : List.Sublist [a, b] (sortByPrice l) := by
  apply List.pair_sublist_mergeSort priceLE_trans priceLE_total ?_ hsub
  simp [priceLE, hab]

lemma sortByPrice_idem (l : List GpuRecord) :
    sortByPrice (sortByPrice l) = sortByPrice l := by
  unfold sortByPrice
  exact List.mergeSort_of_sorted (List.sorted_mergeSort priceLE_trans priceLE_total l)

/-- Claim C4: the records of the sorted views are ordered ascending by
price_per_gpu_hour; the sort is stable (a pair of equal-price records in
the input order stays in that order in the output) and idempotent; and the
string view renders exactly the same sorted sequence (or one of its two
fixed degenerate messages). -/
theorem sorted_views (configLoaded : Bool) (prov : Option String) (cm : ℚ)
    (demoMode : Bool) (cache : CacheRead) (now : ℚ) (r : HttpResult) :
    (getGpusSimple configLoaded prov cm demoMode cache now r).Pairwise
      (fun a b => a.price_per_gpu_hour ≤ b.price_per_gpu_hour) ∧
    (∀ (l : List GpuRecord) (a b : GpuRecord),
      a.price_per_gpu_hour = b.price_per_gpu_hour → List.Sublist [a, b] l →
      List.Sublist [a, b] (sortByPrice l)) ∧
    (∀ l : List GpuRecord, sortByPrice (sortByPrice l) = sortByPrice l) ∧
    (getGpusString configLoaded prov cm demoMode cache now r = "No configuration found" ∨
     getGpusString configLoaded prov cm demoMode cache now r = "No GPUs found" ∨
     getGpusString configLoaded prov cm demoMode cache now r =
       String.intercalate "\n"
         ((getGpusSimple configLoaded prov cm demoMode cache now r).map gpuCsvLine)) := by
  refine ⟨?_, fun l a b hab hsub => sortByPrice_stable l a b hab hsub, sortByPrice_idem, ?_⟩
  · unfold getGpusSimple
    split
    · exact List.Pairwise.nil
    · split
      · exact List.Pairwise.nil
      · exact sortByPrice_sorted _
  · unfold getGpusString getGpusSimple
    split
    · exact Or.inl rfl
    · split
      · exact Or.inr (Or.inl rfl)
      · exact Or.inr (Or.inr rfl)

/-- Witness for claim C4 at the demo view and the demo data set; the
stability part is applied at a concrete equal-price pair. -/
theorem sorted_views_witness :
    (getGpusSimple true (some "") 5 true CacheRead.missing 0 HttpResult.exn).Pairwise
      (fun a b => a.price_per_gpu_hour ≤ b.price_per_gpu_hour) ∧
    sortByPrice (sortByPrice demoGpus) = sortByPrice demoGpus :=
  ⟨(sorted_views true (some "") 5 true CacheRead.missing 0 HttpResult.exn).1,
   (sorted_views true (some "") 5 true CacheRead.missing 0 HttpResult.exn).2.2.1 demoGpus⟩

end Camd
